import Mathlib

/-!
Shallow embedding of the cross-process coordination layer of
`src/nodes/Discord/bot/helpers.ts` (n8n-nodes-discord).

The asynchronous IPC channel and timers are modelled by making the
externally-observable events explicit: each operation takes the relevant
external inputs (the reply the channel eventually delivers, whether the
HTTP POST succeeds, whether a value was set by a collaborator at a given
tick) and returns a trace of the messages it emits, the edits it performs
and the value its promise settles with.  Process-wide mutable state
(`state` from `./state`) is passed explicitly as a `BotState` record.
-/

/-- Credentials record (`ICredentials` in helpers.ts). -/
structure ICredentials where
  clientId : String
  token : String
  apiKey : String
deriving Repr, DecidableEq

/-- Trigger record held in `state.triggers`.  Modelled from the spec:
`state.ts` is not under `src/`; spec section 3 says a `Trigger` carries at
least an `active : bool` flag plus trigger-specific configuration, which is
modelled here as an opaque `config` string. -/
structure Trigger where
  active : Bool
  config : String
deriving Repr, DecidableEq

/-- Payload of the `execution` IPC message (`IExecutionData` in helpers.ts). -/
structure IExecutionData where
  executionId : String
  placeholderId : String
  channelId : String
  apiKey : String
  userId : Option String
deriving Repr, DecidableEq

/-- A message emitted on the shared IPC channel to the bot process. -/
inductive ChanMsg where
  | credentials (c : ICredentials)
  | trigger (t : Trigger)
  | execution (d : IExecutionData)
deriving Repr, DecidableEq

/-- Association-list lookup, modelling a JS object used as a string-keyed map. -/
def mapLookup {α : Type} (m : List (String × α)) (k : String) : Option α :=
  match m with
  | [] => none
  | (k2, v) :: rest => if k2 = k then some v else mapLookup rest k

/-- Association-list write `obj[k] = v`: overwrite the existing entry or append. -/
def mapInsert {α : Type} (m : List (String × α)) (k : String) (v : α) :
    List (String × α) :=
  match m with
  | [] => [(k, v)]
  | (k2, v2) :: rest =>
    if k2 = k then (k2, v) :: rest else (k2, v2) :: mapInsert rest k v

/-- In-place update of an existing entry (`state.triggers[k].active = false`). -/
def mapSet {α : Type} (m : List (String × α)) (k : String) (v : α) :
    List (String × α) :=
  match m with
  | [] => []
  | (k2, v2) :: rest =>
    if k2 = k then (k2, v) :: mapSet rest k v
    else (k2, v2) :: mapSet rest k v

/-- Process-wide mutable store (`state` from `./state`).  Modelled from the
spec: `state.ts` is not under `src/`; the fields are those of spec section 3,
with each mapping as an association list.  `promptData` stores, per message
id, whether the collaborator-set `value` is present (truthy). -/
structure BotState where
  webhookHost : String
  testMode : Bool
  triggers : List (String × Trigger)
  logs : List String
  ready : Bool
  autoLogs : Bool
  autoLogsChannelId : String
  promptData : List (String × Bool)
  placeholderMatching : List (String × String)
deriving Repr, DecidableEq

/-- A convenient all-empty starting state for concrete runs. -/
def initState : BotState :=
  { webhookHost := ""
    testMode := false
    triggers := []
    logs := []
    ready := false
    autoLogs := false
    autoLogsChannelId := ""
    promptData := []
    placeholderMatching := [] }

/-- The guard `!credentials || !credentials.token || !credentials.clientId`
of `connection`: the credentials object is absent, or its `token` or
`clientId` field is falsy (the empty string). -/
def credentialsMissing : Option ICredentials → Bool
  | none => true
  | some c => c.token == "" || c.clientId == ""

/-- The `credentials` response listener body of `connection`
(helpers.ts lines 26-35): a response in `["error", "login", "different"]`
rejects with the corresponding reason, anything else resolves with the
response value itself. -/
def credentialsReply (data : String) : Except String String :=
  if data = "error" ∨ data = "login" ∨ data = "different" then
    Except.error
      (if data = "error" then "Invalid credentials"
       else "Already logging in" ++
         (if data = "different" then " with different credentials" else ""))
  else Except.ok data

/-- Observable outcome of one `connection` call: how the promise settles,
which messages were emitted on the channel, and whether (and with which
delay) the reject-timer was started. -/
structure ConnTrace where
  result : Except String String
  emitted : List ChanMsg
  timeoutMs : Option Nat
deriving Repr

/-- `connection(credentials)` (helpers.ts lines 13-38).  `reply` is the first
`credentials`-typed message delivered by the channel before the 15000 ms
timer fires, `none` if no such message arrives in time. -/
def connection (credentials : Option ICredentials) (reply : Option String) :
    ConnTrace :=
  if credentialsMissing credentials then
    { result := Except.error "credentials missing", emitted := [], timeoutMs := none }
  else
    match credentials with
    | none =>
      { result := Except.error "credentials missing", emitted := [], timeoutMs := none }
    | some c =>
      match reply with
      | none =>
        { result := Except.error "timeout"
          emitted := [ChanMsg.credentials c]
          timeoutMs := some 15000 }
      | some data =>
        { result := credentialsReply data
          emitted := [ChanMsg.credentials c]
          timeoutMs := some 15000 }

/-- The fields of a discord.js `Message` that `triggerWorkflow` reads. -/
structure DiscordMessage where
  content : String
  channelId : String
  authorId : String
deriving Repr, DecidableEq

/-- JSON body POSTed to the webhook endpoint by `triggerWorkflow`. -/
structure WebhookPayload where
  content : String
  channelId : String
  placeholderId : String
  userId : String
deriving Repr, DecidableEq

/-- Observable outcome of one `triggerWorkflow` call. -/
structure TriggerResult where
  newState : BotState
  url : String
  payload : WebhookPayload
  emitted : List ChanMsg
  result : Bool
deriving Repr, DecidableEq

/-- `triggerWorkflow(webhookId, message, placeholderId)` (helpers.ts lines
145-176).  `postOk` says whether the axios POST completes without error; on
error the catch handler runs and the response is falsy. -/
def triggerWorkflow (st : BotState) (webhookId : String)
    (message : DiscordMessage) (placeholderId : String) (postOk : Bool) :
    TriggerResult :=
  let url := st.webhookHost ++ "/webhook" ++
    (if st.testMode then "-test" else "") ++ "/" ++ webhookId ++ "/webhook"
  let payload : WebhookPayload :=
    { content := message.content
      channelId := message.channelId
      placeholderId := placeholderId
      userId := message.authorId }
  if postOk then
    { newState := st, url := url, payload := payload, emitted := [], result := true }
  else
    match mapLookup st.triggers webhookId with
    | some t =>
      if st.testMode then
        { newState := st, url := url, payload := payload, emitted := [], result := false }
      else
        let t2 : Trigger := { t with active := false }
        { newState := { st with triggers := mapSet st.triggers webhookId t2 }
          url := url
          payload := payload
          emitted := [ChanMsg.trigger t2]
          result := false }
    | none =>
      { newState := st, url := url, payload := payload, emitted := [], result := false }

/-- The log line built by `addLog`: ISO timestamp, " -  ", message. -/
def logEntry (now message : String) : String :=
  now ++ " -  " ++ message

/-- `addLog(message, client)` (helpers.ts lines 178-188).  `now` is the
current ISO timestamp, `channelFound` whether the auto-log channel id
resolves in the client cache.  Returns the new state and the chat lines
mirrored to the auto-log channel. -/
def addLog (st : BotState) (message now : String) (channelFound : Bool) :
    BotState × List String :=
  let logs1 := if st.logs.length > 99 then st.logs.tail else st.logs
  let log := logEntry now message
  let st2 := { st with logs := logs1 ++ [log] }
  let sent := if st.ready && st.autoLogs && channelFound then
      ["**" ++ log ++ "**"]
    else []
  (st2, sent)

/-- Iterate `addLog` over a list of messages (timestamp fixed, no mirror). -/
def addLogs (st : BotState) (messages : List String) : BotState :=
  messages.foldl (fun s m => (addLog s m "" false).1) st

/-- Visible side effect of one `pollingPromptData` tick. -/
inductive PromptAction where
  | editClear (content : String)
  | sendTimeoutNotice
  | editCountdown (content : String)
deriving Repr, DecidableEq

/-- Outcome of one `pollingPromptData` tick. -/
structure PromptTick where
  resolved : Bool
  actions : List PromptAction
deriving Repr, DecidableEq

/-- One iteration of the `waiting` closure of `pollingPromptData`
(helpers.ts lines 209-226), at tick counter `i` (starting from 1).
`valueSet` is whether `state.promptData[message.id]?.value` is truthy on
this tick; `channelFound` is whether `message.channelId` resolves in the
client channel cache. -/
def promptTick (content : String) (seconds i : Nat) (valueSet : Bool)
    (channelFound : Bool) : PromptTick :=
  if valueSet = true ∨ (seconds ≠ 0 ∧ i > seconds) then
    { resolved := true
      actions :=
        if valueSet = false then
          [PromptAction.editClear content] ++
            (if channelFound then [PromptAction.sendTimeoutNotice] else [])
        else [] }
  else if seconds ≠ 0 ∧ valueSet = false then
    { resolved := false
      actions :=
        [PromptAction.editCountdown
          (content ++ " (" ++ toString (seconds - i) ++ "s)")] }
  else
    { resolved := false, actions := [] }

/-- Run `pollingPromptData` ticks from counter `i` for at most `fuel`
ticks; `valueSet j` is whether the prompt value is observed set on tick
`j`.  Returns the tick at which the promise resolves (always with `true`)
together with that final tick's side effects, or `none` when the loop is
still running after `fuel` ticks. -/
def promptResolve (content : String) (seconds : Nat) (valueSet : Nat → Bool)
    (channelFound : Bool) (i fuel : Nat) : Option (Nat × List PromptAction) :=
  match fuel with
  | 0 => none
  | fuel2 + 1 =>
    let t := promptTick content seconds i (valueSet i) channelFound
    if t.resolved then some (i, t.actions)
    else promptResolve content seconds valueSet channelFound (i + 1) fuel2

/-- The dot-counter step of `placeholderLoading`:
`i++; if (i > 3) i = 0;`. -/
def phNext (i : Nat) : Nat :=
  if i + 1 > 3 then 0 else i + 1

/-- A string of `n` dots, built like the `for` loop of `placeholderLoading`. -/
def dotsStr (n : Nat) : String :=
  String.mk (List.replicate n '.')

/-- The edits performed by the `waiting` closure of `placeholderLoading`
(helpers.ts lines 268-286), starting at dot counter `i`.  The loop consults
`state.placeholderMatching[placeholderMatchingId]` twice per iteration
(once before the edit, once in the 800 ms timer callback); `presence` is
the list of truthiness values those consultations observe, in order, and
acts as fuel: when it is exhausted the run is cut off. -/
def placeholderRun (txt : String) (i : Nat) (presence : List Bool) :
    List String :=
  match presence with
  | [] => []
  | p1 :: rest =>
    let i2 := phNext i
    let content := txt ++ dotsStr i2
    if p1 = false then [txt]
    else
      content ::
        (match rest with
         | [] => []
         | p2 :: rest2 =>
           if p2 = true then placeholderRun txt i2 rest2 else [txt])

/-- The first statement of `placeholderLoading` (helpers.ts line 266):
`state.placeholderMatching[placeholderMatchingId] = placeholder.id`. -/
def placeholderLoadingInit (st : BotState)
    (placeholderMatchingId placeholderId : String) : BotState :=
  { st with placeholderMatching :=
      mapInsert st.placeholderMatching placeholderMatchingId placeholderId }

/-- A role record from the `list:roles` reply (`IRole` in helpers.ts). -/
structure IRole where
  name : String
  id : String
deriving Repr, DecidableEq

/-- A dropdown option (`INodePropertyOptions`): display name and value. -/
structure NodeOption where
  name : String
  value : String
deriving Repr, DecidableEq

/-- Suffix appended to every placeholder dropdown message. -/
def endMessage : String :=
  " - Close and reopen this node modal once you have made changes."

/-- The placeholder text `getRoles` uses when no role survives filtering. -/
def noRolesMessage : String :=
  "Your Discord server has no roles, please add at least one if you want to restrict the trigger to specific users"
    ++ endMessage

/-- Result of `getRoles` once a reply was received: either the filtered
role list itself or a single placeholder option. -/
inductive RolesOutcome where
  | roles (rs : List IRole)
  | placeholder (opt : NodeOption)
deriving Repr, DecidableEq

/-- The array branch of `getRoles` (helpers.ts lines 128-143): filter out
roles named "@everyone"; return the filtered list when non-empty, else the
"no roles" placeholder option with value "false". -/
def getRolesFromList (roles : List IRole) : RolesOutcome :=
  let filtered := roles.filter (fun r => r.name ≠ "@everyone")
  if filtered.length ≠ 0 then RolesOutcome.roles filtered
  else RolesOutcome.placeholder { name := noRolesMessage, value := "false" }

/-- Observable outcome of one `execution` call. -/
structure ExecTrace where
  result : Except String Bool
  emitted : List ChanMsg
  timeoutMs : Nat
deriving Repr

/-- `execution(executionId, placeholderId, channelId, apiKey, userId)`
(helpers.ts lines 238-261).  `ackTimes` lists the arrival times (in ms) of
the `execution`-typed messages delivered by the channel; the listener
resolves `true` on the first one that arrives before the 15000 ms reject
timer fires, otherwise the timer rejects with "timeout". -/
def execution (d : IExecutionData) (ackTimes : List Nat) : ExecTrace :=
  { result :=
      if ackTimes.any (fun t => t < 15000) then Except.ok true
      else Except.error "timeout"
    emitted := [ChanMsg.execution d]
    timeoutMs := 15000 }

/-- A state holding one active live trigger under key "w1". -/
def liveTriggerState : BotState :=
  { initState with triggers := [("w1", { active := true, config := "cfg" })] }

/-- The same state in test mode. -/
def testTriggerState : BotState :=
  { liveTriggerState with testMode := true }

/-- C1: for every credentials response received on the `credentials`
exchange, `connection` rejects with "Invalid credentials" on "error",
with exactly "Already logging in" on "login", with exactly
"Already logging in with different credentials" on "different", and
resolves with the response value itself on every other string. -/
theorem connection_reply_classification (c : ICredentials) (reply : String)
    (hc : credentialsMissing (some c) = false) :
    (connection (some c) (some "error")).result =
        Except.error "Invalid credentials"
      ∧ (connection (some c) (some "login")).result =
        Except.error "Already logging in"
      ∧ (connection (some c) (some "different")).result =
        Except.error "Already logging in with different credentials"
      ∧ (reply ≠ "error" → reply ≠ "login" → reply ≠ "different" →
          (connection (some c) (some reply)).result = Except.ok reply) := by
  refine ⟨?_, ?_, ?_, ?_⟩
  · simp [connection, hc, credentialsReply]
  · simp [connection, hc, credentialsReply]
  · simp [connection, hc, credentialsReply]
  · intro h1 h2 h3
    simp [connection, hc, credentialsReply, h1, h2, h3]

/-- Witness for C1 at concrete inputs: valid credentials, responses
"ready" and "error". -/
theorem connection_reply_classification_witness :
    (connection (some ⟨"cid", "tok", "key"⟩) (some "ready")).result =
        Except.ok "ready"
      ∧ (connection (some ⟨"cid", "tok", "key"⟩) (some "error")).result =
        Except.error "Invalid credentials" :=
  ⟨(connection_reply_classification ⟨"cid", "tok", "key"⟩ "ready"
      (by decide)).2.2.2 (by decide) (by decide) (by decide),
   (connection_reply_classification ⟨"cid", "tok", "key"⟩ "ready"
      (by decide)).1⟩

/-- C9: for absent credentials or credentials with a missing `clientId` or
`token`, `connection` rejects with "credentials missing" without emitting
anything on the channel and without starting the 15000 ms timer, whatever
the channel would have replied. -/
theorem connection_missing_credentials (credentials : Option ICredentials)
    (reply : Option String) (h : credentialsMissing credentials = true) :
    (connection credentials reply).result = Except.error "credentials missing"
      ∧ (connection credentials reply).emitted = []
      ∧ (connection credentials reply).timeoutMs = none := by
  simp [connection, h]

/-- Witness for C9: credentials with an empty `token`, channel ready to
reply "ready". -/
theorem connection_missing_credentials_witness :
    (connection (some ⟨"cid", "", "key"⟩) (some "ready")).result =
        Except.error "credentials missing"
      ∧ (connection (some ⟨"cid", "", "key"⟩) (some "ready")).emitted = []
      ∧ (connection (some ⟨"cid", "", "key"⟩) (some "ready")).timeoutMs = none :=
  connection_missing_credentials (some ⟨"cid", "", "key"⟩) (some "ready")
    (by decide)

/-- Updating the entry under `k` makes later lookups of `k` return the new
value, provided an entry for `k` existed. -/
theorem mapLookup_mapSet_self {α : Type} (m : List (String × α)) (k : String)
    (v t : α) (h : mapLookup m k = some t) :
    mapLookup (mapSet m k v) k = some v := by
  induction m with
  | nil => simp [mapLookup] at h
  | cons p rest ih =>
    obtain ⟨k2, v2⟩ := p
    by_cases hk : k2 = k
    · subst hk
      simp [mapSet, mapLookup]
    · simp only [mapLookup, hk, if_false] at h
      simp only [mapSet, hk, if_false, mapLookup]
      exact ih h

/-- C2: when the HTTP POST fails and a trigger record exists for the
webhook id, `triggerWorkflow` outside test mode deactivates the record,
emits a `trigger` message carrying the deactivated record, and resolves
`false`; in test mode it leaves the state untouched and still resolves
`false`; a successful POST always resolves `true`. -/
theorem triggerWorkflow_dispatch (st : BotState)
    (webhookId placeholderId : String) (message : DiscordMessage)
    (t : Trigger) (ht : mapLookup st.triggers webhookId = some t) :
    (triggerWorkflow st webhookId message placeholderId true).result = true
      ∧ (st.testMode = false →
          mapLookup
              (triggerWorkflow st webhookId message placeholderId
                false).newState.triggers webhookId =
              some { t with active := false }
            ∧ (triggerWorkflow st webhookId message placeholderId
                false).emitted = [ChanMsg.trigger { t with active := false }]
            ∧ (triggerWorkflow st webhookId message placeholderId
                false).result = false)
      ∧ (st.testMode = true →
          (triggerWorkflow st webhookId message placeholderId
              false).newState = st
            ∧ (triggerWorkflow st webhookId message placeholderId
                false).emitted = []
            ∧ (triggerWorkflow st webhookId message placeholderId
                false).result = false) := by
  refine ⟨by simp [triggerWorkflow], ?_, ?_⟩
  · intro hm
    refine ⟨?_, by simp [triggerWorkflow, ht, hm], by simp [triggerWorkflow, ht, hm]⟩
    simp only [triggerWorkflow, ht, hm]
    simp only [Bool.false_eq_true, if_false, Bool.false_ne_true]
    exact mapLookup_mapSet_self st.triggers webhookId _ t ht
  · intro hm
    simp [triggerWorkflow, ht, hm]

/-- Witness for C2: a failing POST against a live trigger under key "w1"
deactivates it and notifies the bot; the same failure in test mode leaves
the state unchanged. -/
theorem triggerWorkflow_dispatch_witness :
    (triggerWorkflow liveTriggerState "w1" ⟨"hi", "ch", "u"⟩ "p"
        false).emitted =
        [ChanMsg.trigger { active := false, config := "cfg" }]
      ∧ (triggerWorkflow liveTriggerState "w1" ⟨"hi", "ch", "u"⟩ "p"
          false).result = false
      ∧ (triggerWorkflow testTriggerState "w1" ⟨"hi", "ch", "u"⟩ "p"
          false).newState = testTriggerState :=
  ⟨((triggerWorkflow_dispatch liveTriggerState "w1" "p" ⟨"hi", "ch", "u"⟩
      { active := true, config := "cfg" } (by decide)).2.1 (by decide)).2.1,
   ((triggerWorkflow_dispatch liveTriggerState "w1" "p" ⟨"hi", "ch", "u"⟩
      { active := true, config := "cfg" } (by decide)).2.1 (by decide)).2.2,
   ((triggerWorkflow_dispatch testTriggerState "w1" "p" ⟨"hi", "ch", "u"⟩
      { active := true, config := "cfg" } (by decide)).2.2 (by decide)).1⟩

/-- C3: from any state with at most 100 log lines, `addLog` keeps the log
at or below 100 lines, appends the new entry at the end, evicts the oldest
entry exactly when the log is at capacity, and 101 calls from an empty log
leave 100 lines with the first-appended entry evicted. -/
theorem addLog_capacity (st : BotState) (msg now : String)
    (channelFound : Bool) (h : st.logs.length ≤ 100) :
    (addLog st msg now channelFound).1.logs.length ≤ 100
      ∧ (addLog st msg now channelFound).1.logs =
        (if st.logs.length = 100 then st.logs.tail else st.logs) ++
          [logEntry now msg]
      ∧ (st.logs.length < 100 →
          (addLog st msg now channelFound).1.logs =
            st.logs ++ [logEntry now msg])
      ∧ (addLogs initState ((List.range 101).map toString)).logs.length = 100
      ∧ (addLogs initState ((List.range 101).map toString)).logs.head? =
        some (logEntry "" "1") := by
  have h2 : (addLog st msg now channelFound).1.logs =
      (if st.logs.length = 100 then st.logs.tail else st.logs) ++
        [logEntry now msg] := by
    by_cases hl : st.logs.length = 100
    · have hgt : st.logs.length > 99 := by omega
      simp [addLog, hl, hgt]
    · have hle : ¬ st.logs.length > 99 := by omega
      simp [addLog, hl, hle]
  refine ⟨?_, h2, ?_, by set_option maxRecDepth 10000 in decide,
    by set_option maxRecDepth 10000 in decide⟩
  · rw [h2]
    by_cases hl : st.logs.length = 100
    · simp only [hl, if_true, List.length_append, List.length_tail,
        List.length_singleton]
      omega
    · simp only [hl, if_false, List.length_append, List.length_singleton]
      omega
  · intro hlt
    rw [h2]
    have hl : st.logs.length ≠ 100 := by omega
    simp [hl]

/-- Witness for C3: one `addLog` on the empty starting state. -/
theorem addLog_capacity_witness :
    (addLog initState "m" "t" false).1.logs.length ≤ 100
      ∧ (addLog initState "m" "t" false).1.logs = [logEntry "t" "m"] :=
  ⟨(addLog_capacity initState "m" "t" false (by decide)).1,
   by
     have h := (addLog_capacity initState "m" "t" false (by decide)).2.2.1
       (by decide)
     simpa using h⟩

/-- C8: for every role list received on the `list:roles` exchange,
`getRoles` returns the order-preserving sub-list with every role named
"@everyone" removed, and returns the single "no roles" placeholder option
with value "false" exactly when that filtered list is empty. -/
theorem getRoles_filters_everyone (roles : List IRole) :
    (∀ rs, getRolesFromList roles = RolesOutcome.roles rs →
        List.Sublist rs roles
          ∧ (∀ r ∈ rs, r.name ≠ "@everyone")
          ∧ (∀ r ∈ roles, r.name ≠ "@everyone" → r ∈ rs))
      ∧ (roles.filter (fun r => r.name ≠ "@everyone") = [] →
          getRolesFromList roles =
            RolesOutcome.placeholder
              { name := noRolesMessage, value := "false" }) := by
  constructor
  · intro rs h
    simp only [getRolesFromList] at h
    by_cases hl :
        (roles.filter (fun r => decide (r.name ≠ "@everyone"))).length ≠ 0
    · rw [if_pos hl] at h
      injection h with h2
      refine ⟨?_, ?_, ?_⟩
      · rw [← h2]
        exact List.filter_sublist roles
      · rw [← h2]
        intro r hr
        have hm := List.mem_filter.mp hr
        simpa using hm.2
      · intro r hr hn
        rw [← h2]
        exact List.mem_filter.mpr ⟨hr, decide_eq_true hn⟩
    · rw [if_neg hl] at h
      simp at h
  · intro hF
    have h0 : (roles.filter (fun r => decide (r.name ≠ "@everyone"))).length = 0 := by
      rw [hF]
      rfl
    simp only [getRolesFromList]
    rw [if_neg (fun hc => hc h0)]

/-- Witness for C8: a list with "@everyone" and one real role, and the
empty list. -/
theorem getRoles_filters_everyone_witness :
    List.Sublist [({ name := "admin", id := "2" } : IRole)]
        [{ name := "@everyone", id := "1" }, { name := "admin", id := "2" }]
      ∧ getRolesFromList [] =
        RolesOutcome.placeholder { name := noRolesMessage, value := "false" } :=
  ⟨((getRoles_filters_everyone
      [{ name := "@everyone", id := "1" }, { name := "admin", id := "2" }]).1
      [{ name := "admin", id := "2" }] (by decide)).1,
   (getRoles_filters_everyone []).2 (by decide)⟩

/-- C10: `execution` resolves `true` upon the first `execution`-typed
response received before the 15000 ms timer fires, and rejects with
"timeout" when no response arrives within 15000 ms; either way it emits
exactly one `execution` message. -/
theorem execution_ack_or_timeout (d : IExecutionData) (t : Nat)
    (rest ackTimes : List Nat) (ht : t < 15000)
    (hn : ∀ u ∈ ackTimes, ¬ u < 15000) :
    (execution d (t :: rest)).result = Except.ok true
      ∧ (execution d ackTimes).result = Except.error "timeout"
      ∧ (execution d ackTimes).emitted = [ChanMsg.execution d]
      ∧ (execution d ackTimes).timeoutMs = 15000 := by
  refine ⟨?_, ?_, rfl, rfl⟩
  · simp [execution, List.any_cons, ht]
  · have hfalse : ¬ (ackTimes.any (fun u => decide (u < 15000)) = true) := by
      rw [List.any_eq_true]
      rintro ⟨u, hu, hp⟩
      exact hn u hu (by simpa using hp)
    simp [execution, hfalse]

/-- Witness for C10: an acknowledgment at 10 ms, and no acknowledgment. -/
theorem execution_ack_or_timeout_witness :
    (execution ⟨"e", "p", "c", "k", none⟩ [10]).result = Except.ok true
      ∧ (execution ⟨"e", "p", "c", "k", none⟩ []).result =
        Except.error "timeout" :=
  ⟨(execution_ack_or_timeout ⟨"e", "p", "c", "k", none⟩ 10 [] []
      (by decide) (by simp)).1,
   (execution_ack_or_timeout ⟨"e", "p", "c", "k", none⟩ 10 [] []
      (by decide) (by simp)).2.1⟩

/-- C4 counterexample: on a terminating tick where the prompt value is
set, `pollingPromptData` performs no edit at all (its side-effect list is
empty), while the claim asserts that the terminating tick always edits
the message to clear the countdown suffix. -/
theorem promptTick_value_set_no_edit_counterexample :
    (promptTick "hi" 3 1 true true).resolved = true
      ∧ (promptTick "hi" 3 1 true true).actions = [] := by
  decide

/-- C4 (amended): on the tick at which `pollingPromptData` terminates it
resolves `true`; when no value was ever set that tick edits the message
back to the plain content and, if the channel resolves, sends the timeout
notice, while when the value is set it resolves without performing any
edit; in particular with `seconds = 3` and the value never set the loop
terminates on tick 4 with the clearing edit and the timeout notice. -/
theorem promptTick_terminating (content : String) (seconds i : Nat)
    (channelFound : Bool) :
    ((promptTick content seconds i false channelFound).resolved = true →
        (promptTick content seconds i false channelFound).actions =
          [PromptAction.editClear content] ++
            (if channelFound then [PromptAction.sendTimeoutNotice] else []))
      ∧ (promptTick content seconds i true channelFound).resolved = true
      ∧ (promptTick content seconds i true channelFound).actions = []
      ∧ promptResolve content 3 (fun _ => false) true 1 10 =
          some (4, [PromptAction.editClear content,
            PromptAction.sendTimeoutNotice]) := by
  refine ⟨?_, by simp [promptTick], by simp [promptTick], rfl⟩
  intro h
  by_cases hc : seconds ≠ 0 ∧ i > seconds
  · simp [promptTick, hc]
  · simp [promptTick, hc] at h
    split at h <;> simp at h

/-- Witness for C4 (amended): the timed-out tick 4 of a 3-second prompt
performs the clearing edit and sends the notice. -/
theorem promptTick_terminating_witness :
    (promptTick "x" 3 4 false true).actions =
      [PromptAction.editClear "x", PromptAction.sendTimeoutNotice] :=
  (promptTick_terminating "x" 3 4 true).1 (by decide)

/-- C5: with `seconds = 0` the loop never resolves while the prompt value
stays unset, never writes any countdown suffix (a tick performs no edit at
all), and resolves `true` on the first tick that observes the value set. -/
theorem prompt_no_deadline (content : String) (valueSet : Nat → Bool)
    (channelFound : Bool) (i fuel : Nat) :
    ((∀ j, i ≤ j → j < i + fuel → valueSet j = false) →
        promptResolve content 0 valueSet channelFound i fuel = none)
      ∧ (∀ b, (promptTick content 0 i b channelFound).actions = [])
      ∧ (valueSet i = true →
          promptResolve content 0 valueSet channelFound i (fuel + 1) =
            some (i, [])) := by
  refine ⟨?_, ?_, ?_⟩
  · induction fuel generalizing i with
    | zero => intro _; rfl
    | succ n ih =>
      intro h
      have hvi : valueSet i = false := h i (le_refl i) (by omega)
      have ht : promptTick content 0 i (valueSet i) channelFound =
          { resolved := false, actions := [] } := by
        rw [hvi]
        simp [promptTick]
      simp only [promptResolve, ht, Bool.false_eq_true, if_false]
      exact ih (i + 1) (fun j hj1 hj2 => h j (by omega) (by omega))
  · intro b
    cases b <;> simp [promptTick]
  · intro hv
    have ht : promptTick content 0 i (valueSet i) channelFound =
        { resolved := true, actions := [] } := by
      rw [hv]
      simp [promptTick]
    simp only [promptResolve, ht, if_true]

/-- Witness for C5: a value never set within 5 ticks yields no resolution;
a value already set resolves on tick 1 with no edit. -/
theorem prompt_no_deadline_witness :
    promptResolve "x" 0 (fun _ => false) true 1 5 = none
      ∧ promptResolve "x" 0 (fun _ => true) true 1 5 = some (1, []) :=
  ⟨(prompt_no_deadline "x" (fun _ => false) true 1 5).1
      (fun _ _ _ => rfl),
   (prompt_no_deadline "x" (fun _ => true) true 1 4).2.2 rfl⟩

/-- Inserting under `k` makes lookups of `k` return the inserted value. -/
theorem mapLookup_mapInsert_self {α : Type} (m : List (String × α))
    (k : String) (v : α) :
    mapLookup (mapInsert m k v) k = some v := by
  induction m with
  | nil => simp [mapInsert, mapLookup]
  | cons p rest ih =>
    obtain ⟨k2, v2⟩ := p
    by_cases hk : k2 = k
    · subst hk
      simp [mapInsert, mapLookup]
    · simp [mapInsert, mapLookup, hk, ih]

/-- Inserting under `k` leaves lookups of every other key unchanged. -/
theorem mapLookup_mapInsert_other {α : Type} (m : List (String × α))
    (k k2 : String) (v : α) (h : k2 ≠ k) :
    mapLookup (mapInsert m k v) k2 = mapLookup m k2 := by
  induction m with
  | nil => simp [mapInsert, mapLookup, Ne.symm h]
  | cons p rest ih =>
    obtain ⟨k3, v3⟩ := p
    by_cases hk : k3 = k
    · subst hk
      simp [mapInsert, mapLookup, Ne.symm h]
    · simp [mapInsert, mapLookup, hk, ih]

/-- Unfolding lemma: the animation run on an exhausted presence trace. -/
theorem phRun_nil (txt : String) (i : Nat) : placeholderRun txt i [] = [] := by
  unfold placeholderRun
  simp

/-- Unfolding lemma: the entry is absent at the pre-edit check. -/
theorem phRun_false (txt : String) (i : Nat) (rest : List Bool) :
    placeholderRun txt i (false :: rest) = [txt] := by
  unfold placeholderRun
  simp

/-- Unfolding lemma: present at the pre-edit check, absent in the timer
callback. -/
theorem phRun_true_false (txt : String) (i : Nat) (rest : List Bool) :
    placeholderRun txt i (true :: false :: rest) =
      [txt ++ dotsStr (phNext i), txt] := by
  unfold placeholderRun
  simp

/-- Unfolding lemma: present at both checks, so the loop recurses. -/
theorem phRun_true_true (txt : String) (i : Nat) (rest : List Bool) :
    placeholderRun txt i (true :: true :: rest) =
      (txt ++ dotsStr (phNext i)) :: placeholderRun txt (phNext i) rest := by
  conv_lhs => unfold placeholderRun
  simp

/-- C6 counterexample: with the placeholder entry continuously present,
the fourth animation tick edits the message to the bare base text (zero
dots), while the claim says the dot count cycles through exactly 1, 2, 3
and is never 0 while animating. -/
theorem placeholder_zero_dots_counterexample :
    placeholderRun "Loading" 0 (List.replicate 8 true) =
        ["Loading.", "Loading..", "Loading...", "Loading"]
      ∧ ("Loading" : String) ≠ "Loading" ++ dotsStr 1
      ∧ ("Loading" : String) ≠ "Loading" ++ dotsStr 2
      ∧ ("Loading" : String) ≠ "Loading" ++ dotsStr 3 := by
  decide

/-- C6 (amended): while the entry is present, successive ticks edit the
placeholder to the base text followed by a dot count that steps through
the four-tick cycle 1, 2, 3, 0 (so every fourth tick shows the bare base
text); on the first check at which the entry is absent, the loop performs
one final edit restoring the plain base text and stops rescheduling. -/
theorem placeholder_animation (txt : String) (i : Nat) (rest : List Bool) :
    placeholderRun txt i (false :: rest) = [txt]
      ∧ placeholderRun txt i (true :: false :: rest) =
        [txt ++ dotsStr (phNext i), txt]
      ∧ placeholderRun txt i (true :: true :: rest) =
        (txt ++ dotsStr (phNext i)) :: placeholderRun txt (phNext i) rest
      ∧ (phNext 0 = 1 ∧ phNext 1 = 2 ∧ phNext 2 = 3 ∧ phNext 3 = 0)
      ∧ placeholderRun txt 0 (List.replicate 8 true) =
        [txt ++ dotsStr 1, txt ++ dotsStr 2, txt ++ dotsStr 3,
          txt ++ dotsStr 0] := by
  refine ⟨phRun_false txt i rest, phRun_true_false txt i rest,
    phRun_true_true txt i rest, by decide, ?_⟩
  simp only [List.replicate_succ, List.replicate_zero, phRun_true_true,
    phRun_nil]
  norm_num [phNext]

/-- C7 counterexample: the very first statement of `placeholderLoading`
writes `placeholderMatching[placeholderMatchingId] = placeholder.id`, so
the core does write an entry into `placeholderMatching`. -/
theorem placeholder_writes_counterexample :
    (placeholderLoadingInit initState "ph1" "msg1").placeholderMatching =
        [("ph1", "msg1")]
      ∧ initState.placeholderMatching = [] := by
  decide

/-- C7 (amended): `placeholderLoading` writes exactly one entry into
`placeholderMatching` — the id it was given, mapped to the placeholder
message id — at the start of the call; lookups of every other key are
unchanged and no other state field (`promptData`, `triggers`, `logs`) is
touched; the animation loop itself only reads the mapping (its ticks take
the observed presence values as input and return edits only). -/
theorem placeholder_init_frame (st : BotState) (k pid k2 : String)
    (hne : k2 ≠ k) :
    mapLookup (placeholderLoadingInit st k pid).placeholderMatching k =
        some pid
      ∧ mapLookup (placeholderLoadingInit st k pid).placeholderMatching k2 =
        mapLookup st.placeholderMatching k2
      ∧ (placeholderLoadingInit st k pid).promptData = st.promptData
      ∧ (placeholderLoadingInit st k pid).triggers = st.triggers
      ∧ (placeholderLoadingInit st k pid).logs = st.logs :=
  ⟨mapLookup_mapInsert_self st.placeholderMatching k pid,
   mapLookup_mapInsert_other st.placeholderMatching k k2 pid hne,
   rfl, rfl, rfl⟩

/-- Witness for C7 (amended): inserting the entry "ph1" into the empty
state sets that key and leaves an unrelated key absent. -/
theorem placeholder_init_frame_witness :
    mapLookup (placeholderLoadingInit initState "ph1" "msg1").placeholderMatching "ph1" = some "msg1"
      ∧ mapLookup (placeholderLoadingInit initState "ph1" "msg1").placeholderMatching "other" = none :=
  ⟨(placeholder_init_frame initState "ph1" "msg1" "other" (by decide)).1,
   by
     have h :=
       (placeholder_init_frame initState "ph1" "msg1" "other" (by decide)).2.1
     rw [h]
     rfl⟩
